import Mathlib

/-
Shallow embedding of the tio readiness library (C++ sources under include/tio
and src/tio) together with theorems settling the specification claims about
its selector core: descriptor handles, interest translation, the selector's
wait loop, the poll batch discipline, event predicates, registries, and the
source contract.
-/

namespace Tio

/-! ### Kernel flag and errno constants (from sys/epoll.h and cerrno) -/

def EPOLLIN : Nat := 1

def EPOLLPRI : Nat := 2

def EPOLLOUT : Nat := 4

def EPOLLERR : Nat := 8

def EPOLLHUP : Nat := 16

def EPOLLRDHUP : Nat := 8192

def EPOLLET : Nat := 2147483648

/-! ### tio::error (include/tio/error.hpp) -/

/-- tio::error: a single numeric OS error code (error.hpp line 25). -/
structure Error where
  code : Int
deriving DecidableEq, Repr

/-- error::is_interrupted (error.hpp line 38): code == EINTR, and EINTR is 4. -/
def Error.is_interrupted (e : Error) : Bool := e.code == 4

/-! ### tio::detail::fd_guard (include/tio/sys/detail/fd_guard.hpp)

The whole state of a handle is the stored int fd_.  Operations that can close
descriptors also return the list of descriptors they closed. -/

/-- fd_guard's stored descriptor value (fd_guard.hpp line 57). -/
structure fd_guard where
  fd_ : Int
deriving DecidableEq, Repr

/-- Default constructor fd_guard() : fd_{-1} (line 22). -/
def fd_guard.mk_default : fd_guard := ⟨-1⟩

/-- Explicit constructor fd_guard(int fd) : fd_{fd} (line 23): adopts the
argument verbatim, whatever its sign. -/
def fd_guard.from_fd (fd : Int) : fd_guard := ⟨fd⟩

/-- raw_fd() accessor (line 45). -/
def fd_guard.raw_fd (g : fd_guard) : Int := g.fd_

/-- explicit operator bool (line 46): fd_ >= 0. -/
def fd_guard.bool_test (g : fd_guard) : Bool := decide (0 ≤ g.fd_)

/-- Destructor (lines 25-29): closes fd_ iff fd_ >= 0; result is the list of
descriptors closed. -/
def fd_guard.destroy (g : fd_guard) : List Int :=
  if 0 ≤ g.fd_ then [g.fd_] else []

/-- release() (line 47): std::exchange(fd_, -1); yields the raw value and the
emptied handle. -/
def fd_guard.release (g : fd_guard) : Int × fd_guard := (g.fd_, ⟨-1⟩)

/-- Move constructor (line 31): the new handle takes the stored value, the
moved-from handle is left holding -1.  Result is (new handle, source). -/
def fd_guard.move_ctor (g : fd_guard) : fd_guard × fd_guard := (⟨g.fd_⟩, ⟨-1⟩)

/-- Move assignment (lines 33-41): self-assignment is a no-op; otherwise the
destination closes any held fd and takes the source's value, leaving the
source at -1.  Result is ((destination, source), descriptors closed). -/
def fd_guard.move_assign (dst src : fd_guard) (same_object : Bool) :
    (fd_guard × fd_guard) × List Int :=
  if same_object then ((dst, src), [])
  else ((⟨src.fd_⟩, ⟨-1⟩), if 0 ≤ dst.fd_ then [dst.fd_] else [])

/-- reset(fd) (lines 49-54): closes any held non-negative fd, then adopts the
argument verbatim.  Result is (new state, descriptors closed). -/
def fd_guard.reset (g : fd_guard) (fd : Int) : fd_guard × List Int :=
  (⟨fd⟩, if 0 ≤ g.fd_ then [g.fd_] else [])

/-! ### tio::token and tio::interest -/

/-- tio::token (token.hpp): a std::size_t value, 64-bit unsigned. -/
structure Token where
  value_ : Nat
deriving DecidableEq, Repr

/-- token::value() (token.hpp line 26). -/
def Token.value (t : Token) : Nat := t.value_

/-- tio::interest (interest.hpp): a byte bitset with k_readable = 0b001,
k_writable = 0b010, k_priority = 0b100. -/
structure Interest where
  bits_ : Nat
deriving DecidableEq, Repr

/-- interest::readable() factory (interest.hpp lines 23-25). -/
def Interest.readable : Interest := ⟨1⟩

/-- interest::writable() factory (interest.hpp lines 26-28). -/
def Interest.writable : Interest := ⟨2⟩

/-- interest::priority() factory (interest.hpp lines 29-31). -/
def Interest.priority : Interest := ⟨4⟩

/-- interest::is_readable (interest.hpp lines 33-35). -/
def Interest.is_readable (i : Interest) : Bool := i.bits_ &&& 1 != 0

/-- interest::is_writable (interest.hpp lines 37-39). -/
def Interest.is_writable (i : Interest) : Bool := i.bits_ &&& 2 != 0

/-- interest::is_priority (interest.hpp lines 41-43). -/
def Interest.is_priority (i : Interest) : Bool := i.bits_ &&& 4 != 0

/-- interest::is_empty (interest.hpp line 45). -/
def Interest.is_empty (i : Interest) : Bool := i.bits_ == 0

/-! ### epoll_selector: interest translation and registration entries
(src/tio/sys/unix_/epoll_selector.cpp) -/

/-- epoll_selector::interest_to_epoll (epoll_selector.cpp lines 102-118):
flags start at EPOLLET; EPOLLIN | EPOLLRDHUP are added if readable, EPOLLOUT
if writable, EPOLLPRI if priority. -/
def interest_to_epoll (i : Interest) : Nat :=
  let flags := EPOLLET
  let flags := if i.is_readable then flags ||| (EPOLLIN ||| EPOLLRDHUP) else flags
  let flags := if i.is_writable then flags ||| EPOLLOUT else flags
  let flags := if i.is_priority then flags ||| EPOLLPRI else flags
  flags

/-- struct epoll_event: a readiness flag word and a 64-bit user-data field. -/
structure EpollEvent where
  events : Nat
  data : Nat
deriving DecidableEq, Repr

/-- The epoll_event that register_fd hands to EPOLL_CTL_ADD (epoll_selector.cpp
lines 58-60): events = interest_to_epoll(interest), data.u64 = tok.value(). -/
def register_fd_event (tok : Token) (i : Interest) : EpollEvent :=
  ⟨interest_to_epoll i, tok.value⟩

/-- The epoll_event that reregister_fd hands to EPOLL_CTL_MOD
(epoll_selector.cpp lines 74-76), built by the same translation. -/
def reregister_fd_event (tok : Token) (i : Interest) : EpollEvent :=
  ⟨interest_to_epoll i, tok.value⟩

/-! ### epoll_selector::select (epoll_selector.cpp lines 32-51) -/

/-- static_cast<int> of a 64-bit milliseconds count: modular reduction into
the 32-bit signed range. -/
def toInt32 (x : Int) : Int := (x + 2 ^ 31) % 2 ^ 32 - 2 ^ 31

/-- Lines 37-40 of epoll_selector.cpp: timeout_ms starts at -1 and, when a
timeout is present, becomes static_cast<int>(timeout->count()) - with no
adjustment of sign. -/
def select_timeout_ms (timeout : Option Int) : Int :=
  match timeout with
  | none => -1
  | some t => toInt32 t

/-- One response of the kernel wait call: a delivered-event count, or a
failure with an errno value. -/
inductive WaitOutcome where
  | ok (n : Nat)
  | err (code : Int)
deriving DecidableEq, Repr

/-- The retry condition of line 45: n < 0 && errno == EINTR (EINTR is 4). -/
def retries (o : WaitOutcome) : Bool :=
  match o with
  | .ok _ => false
  | .err c => c == 4

/-- The do/while loop of lines 42-45 run against the kernel's successive
responses: the first response that does not satisfy the retry condition is
the loop's final outcome; none means every listed response was retried and
the loop is still waiting. -/
def select_loop : List WaitOutcome → Option WaitOutcome
  | [] => none
  | o :: rest => if retries o then select_loop rest else some o

/-- Lines 47-50: the final wait outcome mapped to result<int> - an error wraps
the errno value, a count is returned as-is. -/
def select_result (attempts : List WaitOutcome) : Option (Except Error Nat) :=
  (select_loop attempts).map fun o =>
    match o with
    | .ok n => Except.ok n
    | .err c => Except.error ⟨c⟩

/-- Modelled from the documented contract of the epoll_wait(2) kernel facility
that epoll_selector::select invokes (the spec's scalable event-notification
wait call): a maxevents argument that is not positive is rejected with EINVAL
(which is 22) before any waiting; otherwise the call reports at most
maxevents of the `ready` events available when it returns (zero when the
timeout expired with nothing ready). -/
def epoll_wait_model (ready : Nat) (maxevents : Int) (_timeout_ms : Int) : WaitOutcome :=
  if maxevents ≤ 0 then .err 22
  else .ok (min ready maxevents.toNat)

/-- epoll_selector::select (lines 32-51) with the kernel wait instantiated by
epoll_wait_model; the deterministic model never reports EINTR, so the retry
loop of lines 43-45 performs exactly one wait. -/
def select_model (ready : Nat) (maxevents : Int) (timeout : Option Int) :
    Except Error Nat :=
  match epoll_wait_model ready maxevents (select_timeout_ms timeout) with
  | .ok n => Except.ok n
  | .err c => Except.error ⟨c⟩

/-! ### Event views and the event batch (include/tio/event.hpp) -/

/-- sys::raw_event is ::epoll_event (selector.hpp line 26). -/
abbrev RawEvent := EpollEvent

/-- event::tok (event.hpp line 26): token{raw_->data.u64}. -/
def event.tok (e : RawEvent) : Token := ⟨e.data⟩

/-- event::is_readable (event.hpp line 28): events & EPOLLIN != 0. -/
def event.is_readable (e : RawEvent) : Bool := e.events &&& EPOLLIN != 0

/-- event::is_writable (event.hpp line 30): events & EPOLLOUT != 0. -/
def event.is_writable (e : RawEvent) : Bool := e.events &&& EPOLLOUT != 0

/-- event::is_error (event.hpp line 32): events & EPOLLERR != 0. -/
def event.is_error (e : RawEvent) : Bool := e.events &&& EPOLLERR != 0

/-- event::is_read_closed (event.hpp lines 34-36):
events & (EPOLLHUP | EPOLLRDHUP) != 0. -/
def event.is_read_closed (e : RawEvent) : Bool :=
  e.events &&& (EPOLLHUP ||| EPOLLRDHUP) != 0

/-- event::is_write_closed (event.hpp lines 38-40):
events & (EPOLLHUP | EPOLLERR) != 0. -/
def event.is_write_closed (e : RawEvent) : Bool :=
  e.events &&& (EPOLLHUP ||| EPOLLERR) != 0

/-- event::is_priority (event.hpp line 42): events & EPOLLPRI != 0. -/
def event.is_priority (e : RawEvent) : Bool := e.events &&& EPOLLPRI != 0

/-- tio::events (event.hpp lines 77-108): a buffer of capacity_ raw-event
slots and a current length len_; buf i is the current raw contents of slot i
(meaningful for i < capacity). -/
structure EventsBatch where
  capacity : Nat
  buf : Nat → RawEvent
  len : Nat

/-- events::size (event.hpp line 82). -/
def EventsBatch.size (b : EventsBatch) : Nat := b.len

/-- events::is_empty (event.hpp line 86). -/
def EventsBatch.is_empty (b : EventsBatch) : Bool := b.len == 0

/-- events::clear (event.hpp line 102): len_ = 0, buffer untouched. -/
def EventsBatch.clear (b : EventsBatch) : EventsBatch := { b with len := 0 }

/-- events::set_len (event.hpp line 100). -/
def EventsBatch.set_len (b : EventsBatch) (n : Nat) : EventsBatch := { b with len := n }

/-- events::raw_capacity (event.hpp line 98): static_cast<int>(capacity_). -/
def EventsBatch.raw_capacity (b : EventsBatch) : Int := (b.capacity : Int)

/-- events::operator[] (event.hpp line 94): event{buf_[i]} - reads slot i of
the raw buffer directly, with no comparison of i against len_ or capacity_. -/
def EventsBatch.get_ev (b : EventsBatch) (i : Nat) : RawEvent := b.buf i

/-- The kernel writing the delivered events into the front of the raw buffer
during the wait; slots at and beyond the delivered count keep their previous
contents. -/
def write_events (buf : Nat → RawEvent) (delivered : List RawEvent) : Nat → RawEvent :=
  fun i => if h : i < delivered.length then delivered.get ⟨i, h⟩ else buf i

/-! ### tio::poll and tio::registry (include/tio/poll.hpp, src/tio/poll.cpp) -/

/-- poll::do_poll (poll.cpp lines 48-61): evs.clear(); then
selector.select(evs.raw_buf(), evs.raw_capacity(), timeout) - during which
the kernel fills the front of the raw buffer with the delivered events - and
on success evs.set_len(n); on failure the error is returned with the batch
still cleared.  `ready` is the list of events the kernel has available for
this wait. -/
def do_poll (b : EventsBatch) (ready : List RawEvent) (timeout : Option Int) :
    EventsBatch × Except Error Unit :=
  match select_model ready.length (b.clear).raw_capacity timeout with
  | Except.error e => (b.clear, Except.error e)
  | Except.ok n =>
      (({ b.clear with buf := write_events (b.clear).buf (ready.take n) }).set_len n,
        Except.ok ())

/-- epoll_selector's owned state: the epoll descriptor handle
(epoll_selector.hpp line 55). -/
structure Selector where
  epoll_fd_ : fd_guard
deriving DecidableEq, Repr

/-- tio::registry (poll.hpp line 53): a raw pointer to a selector, modelled by
the address it stores. -/
structure Registry where
  sel_ : Nat
deriving DecidableEq, Repr

/-- registry::try_clone (poll.cpp lines 28-34): calls sel_->try_clone(); on
failure forwards the error; on success the local clone goes out of scope
(its fd_guard destructor closes the duplicated descriptor) and the function
returns registry{sel_} - built from the registry's own stored pointer.
Result is (returned value, descriptors closed during the call). -/
def Registry.try_clone (r : Registry) (clone_res : Except Error Selector) :
    Except Error Registry × List Int :=
  match clone_res with
  | Except.error e => (Except.error e, [])
  | Except.ok cloned => (Except.ok ⟨r.sel_⟩, cloned.epoll_fd_.destroy)

/-! ### The source contract (include/tio/source.hpp) and the wrappers -/

/-- The registration-capability member names found on the repository's wrapper
classes. -/
inductive RegMethod where
  | tio_register
  | tio_reregister
  | tio_deregister
  | mio_register
  | mio_reregister
  | mio_deregister
deriving DecidableEq, Repr

/-- tcp_listener's registration members (net/tcp_listener.hpp lines 60-70):
mio_register, mio_reregister, mio_deregister. -/
def tcp_listener_methods : List RegMethod :=
  [.mio_register, .mio_reregister, .mio_deregister]

/-- tcp_stream's registration members (net/tcp_stream.hpp lines 77-87). -/
def tcp_stream_methods : List RegMethod :=
  [.mio_register, .mio_reregister, .mio_deregister]

/-- udp_socket's registration members (net/udp_socket.hpp lines 102-112):
tio_register, tio_reregister, tio_deregister. -/
def udp_socket_methods : List RegMethod :=
  [.tio_register, .tio_reregister, .tio_deregister]

/-- unix_listener's registration members (unix/unix_listener.hpp lines 52-62). -/
def unix_listener_methods : List RegMethod :=
  [.tio_register, .tio_reregister, .tio_deregister]

/-- Modelled from the spec: the class definition of unix_stream (the header
tio/unix/unix_stream.hpp that unix_stream.cpp includes) is not under src;
the spec states every standard wrapper implements the source contract, whose
operations are the three tio_-prefixed ones. -/
def unix_stream_methods : List RegMethod :=
  [.tio_register, .tio_reregister, .tio_deregister]

/-- unix_datagram's registration members (unix/unix_datagram.hpp lines 70-80). -/
def unix_datagram_methods : List RegMethod :=
  [.mio_register, .mio_reregister, .mio_deregister]

/-- pipe_sender's registration members (unix/pipe.hpp lines 49-59). -/
def pipe_sender_methods : List RegMethod :=
  [.mio_register, .mio_reregister, .mio_deregister]

/-- pipe_receiver's registration members (unix/pipe.hpp lines 87-97). -/
def pipe_receiver_methods : List RegMethod :=
  [.mio_register, .mio_reregister, .mio_deregister]

/-- raw_fd's registration members (raw_fd.hpp lines 28-38). -/
def raw_fd_methods : List RegMethod :=
  [.tio_register, .tio_reregister, .tio_deregister]

/-- waker's public members (waker.hpp lines 23-41) are create, wake and drain:
it has no registration members at all. -/
def waker_methods : List RegMethod := []

/-- The standard wrappers named by the spec: stream/datagram/listener wrappers
for TCP, UDP and the local family, the pipe endpoints, raw_fd and the waker. -/
def standard_wrappers : List (List RegMethod) :=
  [tcp_listener_methods, tcp_stream_methods, udp_socket_methods,
   unix_listener_methods, unix_stream_methods, unix_datagram_methods,
   pipe_sender_methods, pipe_receiver_methods, raw_fd_methods, waker_methods]

/-- The wrappers whose own headers static_assert(source<T>): tcp_listener.hpp
line 78, tcp_stream.hpp line 93, udp_socket.hpp line 120, unix_listener.hpp
line 70, unix_datagram.hpp line 88, pipe.hpp lines 105-106, raw_fd.hpp
line 44. -/
def asserted_source_wrappers : List (List RegMethod) :=
  [tcp_listener_methods, tcp_stream_methods, udp_socket_methods,
   unix_listener_methods, unix_datagram_methods,
   pipe_sender_methods, pipe_receiver_methods, raw_fd_methods]

/-- The source concept (source.hpp lines 24-29): a type satisfies it exactly
when it has members tio_register, tio_reregister and tio_deregister of the
required shape. -/
def source_concept (m : List RegMethod) : Prop :=
  RegMethod.tio_register ∈ m ∧ RegMethod.tio_reregister ∈ m ∧
    RegMethod.tio_deregister ∈ m

instance (m : List RegMethod) : Decidable (source_concept m) := by
  unfold source_concept
  exact inferInstance

/-- registry::register_source / reregister_source / deregister_source
(poll.hpp lines 32-45): each template requires source<s_t> and its body calls
s.mio_register / s.mio_reregister / s.mio_deregister.  An instantiation is
well-formed only if the wrapper both satisfies the concept and has the
mio_-prefixed members the bodies name. -/
def register_source_well_formed (m : List RegMethod) : Prop :=
  source_concept m ∧ RegMethod.mio_register ∈ m ∧
    RegMethod.mio_reregister ∈ m ∧ RegMethod.mio_deregister ∈ m

instance (m : List RegMethod) : Decidable (register_source_well_formed m) := by
  unfold register_source_well_formed
  exact inferInstance

/-! ### Theorems settling the claims -/

/-- Claim C1: the source contract is broken in the reviewed source, not
satisfied by every standard wrapper.  pipe_sender exposes only mio_-prefixed
registration members yet its own header static_asserts source<pipe_sender>,
which requires the tio_-prefixed ones; udp_socket satisfies the concept but
registry::register_source's body names mio_register, which udp_socket lacks;
and no standard wrapper at all makes register_source/reregister_source/
deregister_source well-formed. -/
theorem source_contract_broken :
    (¬ source_concept pipe_sender_methods) ∧
    pipe_sender_methods ∈ asserted_source_wrappers ∧
    source_concept udp_socket_methods ∧
    (¬ register_source_well_formed udp_socket_methods) ∧
    (∀ m ∈ standard_wrappers, ¬ register_source_well_formed m) := by
  decide

/-- Claim C2, counterexample: a present timeout of -5 milliseconds is handed
to the kernel wait as -5 - negative, not clamped to zero. -/
theorem negative_timeout_reaches_kernel :
    select_timeout_ms (some (-5)) = -5 ∧ select_timeout_ms (some (-5)) < 0 := by
  constructor
  · show (-5 + 2 ^ 31) % 2 ^ 32 - 2 ^ 31 = -5
    norm_num
  · show (-5 + 2 ^ 31) % 2 ^ 32 - 2 ^ 31 < 0
    norm_num

/-- Claim C2 as amended: an absent timeout is passed to the kernel as -1; a
present timeout is passed as its millisecond count cast to 32-bit int with no
clamping, so every in-range count - negative ones included - reaches the
kernel verbatim. -/
theorem timeout_passed_unclamped :
    select_timeout_ms none = -1 ∧
    (∀ t : Int, -(2 ^ 31) ≤ t → t < 2 ^ 31 → select_timeout_ms (some t) = t) := by
  refine ⟨rfl, ?_⟩
  intro t h1 h2
  show (t + 2 ^ 31) % 2 ^ 32 - 2 ^ 31 = t
  norm_num at h1 h2 ⊢
  omega

/-- Witness for the amended claim C2 at the concrete in-range negative count
-5: the kernel receives -5 itself. -/
theorem timeout_passed_unclamped_witness : select_timeout_ms (some (-5)) = -5 :=
  timeout_passed_unclamped.2 (-5) (by norm_num) (by norm_num)

/-- Claim C3, counterexample: with an event-buffer capacity of zero and a
present 10 ms timeout, select returns the kernel's EINVAL error - it does not
succeed with a zero count. -/
theorem zero_capacity_select_errors :
    select_model 0 0 (some 10) = Except.error ⟨22⟩ ∧
    select_model 0 0 (some 10) ≠ Except.ok 0 :=
  ⟨rfl, fun h => Except.noConfusion h⟩

/-- Claim C3 as amended: select performs no zero-capacity short-circuit; it
forwards maxevents = 0 to the kernel wait unchanged, which rejects it with
EINVAL, so for every ready count and every timeout the call reports that
error rather than a successful zero count. -/
theorem zero_capacity_rejected (ready : Nat) (t : Option Int) :
    select_model ready 0 t = Except.error ⟨22⟩ := rfl

/-- Claim C7, counterexample: constructing a handle from -5 stores -5, whose
raw accessor returns -5 - neither a valid descriptor nor the -1 sentinel -
and resetting a handle to -7 leaves the raw accessor returning -7. -/
theorem fd_guard_negative_not_sentinel :
    (fd_guard.from_fd (-5)).raw_fd = -5 ∧
    (¬ (0 ≤ (fd_guard.from_fd (-5)).raw_fd ∨ (fd_guard.from_fd (-5)).raw_fd = -1)) ∧
    (fd_guard.reset ⟨3⟩ (-7)).1.raw_fd = -7 := by
  refine ⟨rfl, ?_, rfl⟩
  intro h
  rcases h with h | h
  · exact absurd h (by decide)
  · exact absurd h (by decide)

/-- Claim C7 as amended: a handle's emptiness is decided by sign - the boolean
test is fd >= 0 and destruction closes nothing exactly when fd < 0; the
handles produced by the default constructor, by release and by being moved
from store exactly -1; construction from a raw value and reset adopt the
argument verbatim, so a negative adopted value yields an empty handle (never
closed) whose raw accessor returns that value itself, not -1. -/
theorem fd_guard_emptiness_invariant :
    fd_guard.mk_default.raw_fd = -1 ∧
    (∀ g : fd_guard, (g.release).2.raw_fd = -1 ∧ (g.release).1 = g.raw_fd) ∧
    (∀ g : fd_guard,
      (fd_guard.move_ctor g).2.raw_fd = -1 ∧
        (fd_guard.move_ctor g).1.raw_fd = g.raw_fd) ∧
    (∀ g : fd_guard, g.bool_test = true ↔ 0 ≤ g.raw_fd) ∧
    (∀ g : fd_guard, g.destroy = [] ↔ g.raw_fd < 0) ∧
    (∀ n : Int, n < 0 →
      (fd_guard.from_fd n).raw_fd = n ∧ (fd_guard.from_fd n).bool_test = false ∧
        (fd_guard.from_fd n).destroy = []) ∧
    (∀ (g : fd_guard) (n : Int), n < 0 →
      (fd_guard.reset g n).1.raw_fd = n ∧ (fd_guard.reset g n).1.bool_test = false) := by
  refine ⟨rfl, fun g => ⟨rfl, rfl⟩, fun g => ⟨rfl, rfl⟩, ?_, ?_, ?_, ?_⟩
  · intro g
    simp [fd_guard.bool_test, fd_guard.raw_fd]
  · intro g
    unfold fd_guard.destroy fd_guard.raw_fd
    split
    · simp
      omega
    · simp
      omega
  · intro n hn
    refine ⟨rfl, ?_, ?_⟩
    · simp [fd_guard.bool_test, fd_guard.from_fd]
      omega
    · simp [fd_guard.destroy, fd_guard.from_fd]
      omega
  · intro g n hn
    refine ⟨rfl, ?_⟩
    simp [fd_guard.bool_test, fd_guard.reset]
    omega

/-- Witness for the amended claim C7 at the concrete negative value -5: the
handle is empty but stores -5 verbatim. -/
theorem fd_guard_emptiness_invariant_witness :
    (fd_guard.from_fd (-5)).raw_fd = -5 ∧ (fd_guard.from_fd (-5)).bool_test = false ∧
      (fd_guard.from_fd (-5)).destroy = [] :=
  fd_guard_emptiness_invariant.2.2.2.2.2.1 (-5) (by norm_num)

/-- Claim C5: for every interest i and token t, the kernel entry installed by
register(fd, t, i) carries the edge-triggered flag always; its input-ready
(bit 0) and peer-read-hangup (bit 13) flags exactly when i includes READABLE;
its output-ready flag (bit 2) exactly when i includes WRITABLE; its priority
flag (bit 1) exactly when i includes PRIORITY; its mask is exactly the union
of those parts; its 64-bit user-data field is t's value verbatim; and
reregister builds the identical entry. -/
theorem register_mask_translation (i : Interest) (tok : Token) :
    (register_fd_event tok i).data = tok.value ∧
    reregister_fd_event tok i = register_fd_event tok i ∧
    (register_fd_event tok i).events.testBit 31 = true ∧
    (register_fd_event tok i).events.testBit 0 = i.is_readable ∧
    (register_fd_event tok i).events.testBit 13 = i.is_readable ∧
    (register_fd_event tok i).events.testBit 2 = i.is_writable ∧
    (register_fd_event tok i).events.testBit 1 = i.is_priority ∧
    (register_fd_event tok i).events =
      EPOLLET ||| (if i.is_readable then EPOLLIN ||| EPOLLRDHUP else 0) |||
        (if i.is_writable then EPOLLOUT else 0) |||
        (if i.is_priority then EPOLLPRI else 0) := by
  cases hr : i.is_readable <;> cases hw : i.is_writable <;> cases hp : i.is_priority <;>
    simp only [register_fd_event, reregister_fd_event, interest_to_epoll, hr, hw, hp,
      EPOLLET, EPOLLIN, EPOLLRDHUP, EPOLLOUT, EPOLLPRI, Bool.false_eq_true, if_true,
      if_false, Token.value] <;>
    exact ⟨trivial, trivial, by decide, by decide, by decide, by decide, by decide, by decide⟩

/-- Claim C6: the wait loop retries transparently on the interrupted code -
prefixing any run of EINTR failures to the kernel's responses leaves the
loop's outcome unchanged - and whenever select returns at all, the error it
returns is never classified as interrupted. -/
theorem select_never_interrupted :
    (∀ rest, select_loop (WaitOutcome.err 4 :: rest) = select_loop rest) ∧
    (∀ (attempts : List WaitOutcome) (e : Error),
      select_result attempts = some (Except.error e) → e.is_interrupted = false) := by
  constructor
  · intro rest
    simp [select_loop, retries]
  · intro attempts
    induction attempts with
    | nil =>
        intro e h
        simp [select_result, select_loop] at h
    | cons o rest ih =>
        intro e h
        by_cases ho : retries o = true
        · apply ih
          simpa [select_result, select_loop, ho] using h
        · cases o with
          | ok n =>
              simp [select_result, select_loop, ho] at h
          | err c =>
              simp [select_result, select_loop, ho] at h
              have hc : (c == 4) = false := by
                simpa [retries] using ho
              subst h
              simpa [Error.is_interrupted] using hc

/-- Witness for claim C6: with kernel responses EINTR-failure then failure
with code 9, select returns the code-9 error, which is not classified as
interrupted. -/
theorem select_never_interrupted_witness :
    select_result [WaitOutcome.err 4, WaitOutcome.err 9] =
      some (Except.error ⟨9⟩) ∧ Error.is_interrupted ⟨9⟩ = false :=
  ⟨rfl, select_never_interrupted.2 [WaitOutcome.err 4, WaitOutcome.err 9] ⟨9⟩ rfl⟩

/-- Claim C8: whenever registry::try_clone succeeds, the registry it returns
stores the very same selector pointer as the original registry - regardless
of the selector value the clone produced - and the clone's descriptor handle
is destroyed (its close performed) before try_clone returns. -/
theorem try_clone_points_at_original (r : Registry)
    (clone_res : Except Error Selector) (s : Selector)
    (h : clone_res = Except.ok s) :
    (Registry.try_clone r clone_res).1 = Except.ok ⟨r.sel_⟩ ∧
    (∀ res : Registry,
      (Registry.try_clone r clone_res).1 = Except.ok res → res.sel_ = r.sel_) ∧
    (Registry.try_clone r clone_res).2 = s.epoll_fd_.destroy := by
  subst h
  refine ⟨rfl, ?_, rfl⟩
  intro res hres
  simp [Registry.try_clone] at hres
  rw [← hres]

/-- Witness for claim C8: a registry storing selector address 100 whose
selector clone succeeded with descriptor 7 returns a registry storing
address 100, and descriptor 7 is closed by the call. -/
theorem try_clone_points_at_original_witness :
    (Registry.try_clone ⟨100⟩ (Except.ok ⟨⟨7⟩⟩)).1 = Except.ok ⟨100⟩ ∧
    (∀ res : Registry,
      (Registry.try_clone ⟨100⟩ (Except.ok ⟨⟨7⟩⟩)).1 = Except.ok res →
        res.sel_ = 100) ∧
    (Registry.try_clone ⟨100⟩ (Except.ok ⟨⟨7⟩⟩)).2 = [7] :=
  try_clone_points_at_original ⟨100⟩ (Except.ok ⟨⟨7⟩⟩) ⟨⟨7⟩⟩ rfl

/-- When select succeeds under the kernel model, the count is the minimum of
the ready count and the (positive) capacity. -/
lemma select_model_ok_spec (ready cap : Nat) (t : Option Int) (n : Nat)
    (h : select_model ready (cap : Int) t = Except.ok n) :
    n = min ready cap ∧ n ≤ cap ∧ 0 < cap := by
  unfold select_model epoll_wait_model at h
  by_cases hc : (cap : Int) ≤ 0
  · simp [hc] at h
  · simp [hc] at h
    have hcap : 0 < cap := by
      have : (0 : Int) < cap := lt_of_not_le hc
      exact_mod_cast this
    exact ⟨h.symm, by omega, hcap⟩

/-- Claim C4: do_poll clears the batch before filling it, regardless of the
batch's previous length; when the underlying select succeeds with n events,
the batch length on return is exactly n with n at most the capacity and the
call succeeds; when select fails, the call returns the error with the batch
length equal to zero. -/
theorem do_poll_batch_length (b : EventsBatch) (ready : List RawEvent)
    (t : Option Int) :
    (∀ n, select_model ready.length b.raw_capacity t = Except.ok n →
        (do_poll b ready t).1.len = n ∧ n ≤ b.capacity ∧
          (do_poll b ready t).2 = Except.ok ()) ∧
    (∀ e, select_model ready.length b.raw_capacity t = Except.error e →
        (do_poll b ready t).1.len = 0 ∧ (do_poll b ready t).2 = Except.error e) := by
  have hb : (b.clear).raw_capacity = b.raw_capacity := rfl
  constructor
  · intro n hn
    have hspec := select_model_ok_spec ready.length b.capacity t n hn
    unfold do_poll
    rw [hb, hn]
    exact ⟨rfl, hspec.2.1, rfl⟩
  · intro e he
    unfold do_poll
    rw [hb, he]
    exact ⟨rfl, rfl⟩

/-- Witness for claim C4: a batch of capacity 2 and stale length 7, with one
event ready and a 10 ms timeout, comes back with length 1 and success. -/
theorem do_poll_batch_length_witness :
    (do_poll ⟨2, fun _ => ⟨0, 0⟩, 7⟩ [⟨1, 5⟩] (some 10)).1.len = 1 ∧ 1 ≤ 2 ∧
      (do_poll ⟨2, fun _ => ⟨0, 0⟩, 7⟩ [⟨1, 5⟩] (some 10)).2 = Except.ok () :=
  (do_poll_batch_length ⟨2, fun _ => ⟨0, 0⟩, 7⟩ [⟨1, 5⟩] (some 10)).1 1 rfl

/-- A bitwise conjunction is nonzero exactly when some bit position is set in
both operands. -/
lemma and_mask_ne_zero_iff (x m : Nat) :
    x &&& m ≠ 0 ↔ ∃ i, x.testBit i = true ∧ m.testBit i = true := by
  constructor
  · intro h
    by_contra hc
    push_neg at hc
    apply h
    apply Nat.zero_of_testBit_eq_false
    intro i
    rw [Nat.testBit_and]
    cases hx : x.testBit i with
    | false => simp
    | true =>
        have hm := hc i hx
        simp only [Bool.not_eq_true] at hm
        simp [hm]
  · rintro ⟨i, hx, hm⟩ h0
    have h1 := congrArg (fun y => y.testBit i) h0
    simp [Nat.testBit_and, Nat.zero_testBit, hx, hm] at h1

/-- The bits of a two-flag mask. -/
lemma testBit_pair_mask (a b i : Nat) :
    ((2 ^ a ||| 2 ^ b) : Nat).testBit i = (decide (a = i) || decide (b = i)) := by
  rw [Nat.testBit_or, Nat.testBit_two_pow, Nat.testBit_two_pow]

/-- Testing a value against the union of two distinct single-bit flags is
nonzero exactly when one of the two bits is set. -/
lemma and_pair_mask_ne (x a b : Nat) :
    ((x &&& (2 ^ a ||| 2 ^ b) != 0) = true) ↔
      (x.testBit a = true ∨ x.testBit b = true) := by
  rw [bne_iff_ne, and_mask_ne_zero_iff]
  constructor
  · rintro ⟨i, hx, hm⟩
    rw [testBit_pair_mask] at hm
    simp only [Bool.or_eq_true, decide_eq_true_eq] at hm
    rcases hm with h | h
    · subst h
      exact Or.inl hx
    · subst h
      exact Or.inr hx
  · rintro (h | h)
    · exact ⟨a, h, by rw [testBit_pair_mask]; simp⟩
    · exact ⟨b, h, by rw [testBit_pair_mask]; simp⟩

/-- Claim C9: for every raw event, the view's is_read_closed is true exactly
when the flag word has the hang-up bit (bit 4) or the read-hang-up bit
(bit 13) set, and is_write_closed is true exactly when it has the hang-up bit
or the error bit (bit 3) set - so an event carrying only the error flag is
reported write-closed (and is_error) but not read-closed. -/
theorem close_predicates (e : RawEvent) :
    (event.is_read_closed e = true ↔
      (e.events.testBit 4 = true ∨ e.events.testBit 13 = true)) ∧
    (event.is_write_closed e = true ↔
      (e.events.testBit 4 = true ∨ e.events.testBit 3 = true)) ∧
    event.is_write_closed ⟨8, 0⟩ = true ∧ event.is_error ⟨8, 0⟩ = true ∧
      event.is_read_closed ⟨8, 0⟩ = false := by
  refine ⟨?_, ?_, by decide, by decide, by decide⟩
  · rw [show event.is_read_closed e = (e.events &&& (2 ^ 4 ||| 2 ^ 13) != 0) from rfl]
    exact and_pair_mask_ne e.events 4 13
  · rw [show event.is_write_closed e = (e.events &&& (2 ^ 4 ||| 2 ^ 3) != 0) from rfl]
    exact and_pair_mask_ne e.events 4 3

/-- Witness for claim C9 at concrete flag words: hang-up alone (16) is
read-closed, and error alone (8) is write-closed. -/
theorem close_predicates_witness :
    event.is_read_closed ⟨16, 0⟩ = true ∧ event.is_write_closed ⟨8, 0⟩ = true :=
  ⟨(close_predicates ⟨16, 0⟩).1.mpr (Or.inl (by decide)),
    (close_predicates ⟨8, 0⟩).2.2.1⟩

/-- Claim C10: indexed access on an event batch is unchecked - the slot read
never consults the current length (changing the length changes nothing about
what index i returns), and after a successful poll delivering n events,
reading an index at or beyond n but within capacity yields the stale raw
event the buffer held before the poll, not an error. -/
theorem indexed_access_unchecked (b : EventsBatch) (ready : List RawEvent)
    (t : Option Int) (i m : Nat) :
    EventsBatch.get_ev { b with len := m } i = EventsBatch.get_ev b i ∧
    ((do_poll b ready t).2 = Except.ok () → (do_poll b ready t).1.len ≤ i →
      i < b.capacity → (do_poll b ready t).1.get_ev i = b.buf i) := by
  refine ⟨rfl, ?_⟩
  intro hok hle _hcap
  cases hsel : select_model ready.length ((b.capacity : Int)) t with
  | error e =>
      simp [do_poll, EventsBatch.clear, EventsBatch.raw_capacity, hsel] at hok
  | ok n =>
      simp only [do_poll, EventsBatch.clear, EventsBatch.raw_capacity, hsel,
        EventsBatch.set_len, EventsBatch.get_ev] at hle ⊢
      unfold write_events
      rw [dif_neg (by rw [List.length_take]; omega)]

/-- Witness for claim C10: a capacity-2 batch whose slot j holds an event
tagged j polls one event; reading index 1 (= the returned length, inside
capacity) yields the stale pre-poll slot contents. -/
theorem indexed_access_unchecked_witness :
    (do_poll ⟨2, fun j => ⟨j, j⟩, 0⟩ [⟨1, 5⟩] (some 10)).1.get_ev 1 = ⟨1, 1⟩ :=
  (indexed_access_unchecked ⟨2, fun j => ⟨j, j⟩, 0⟩ [⟨1, 5⟩] (some 10) 1 0).2
    rfl (by decide) (by decide)

end Tio
